import Mathlib

/-!
Verification development for the BotPoly trading bot's decision core.

Shallow embedding of `src/bot/strategy.py`, `src/bot/risk.py`, `src/bot/model.py`,
`src/bot/execution.py` (paper path) and the orchestration loops of
`src/bot/runner.py`.  Python floats are modelled as rationals (`ℚ`) for the
pure decision/risk logic and as reals (`ℝ`) for the probability model, whose
definition uses `sqrt` and `exp`.  Timestamps are rationals counting seconds.
Effectful calls (the order-submission client inside the decision loop) are
modelled by passing the collaborator's response function explicitly.
-/

namespace BotPoly

/-- `Decision` enum from `src/bot/types.py` (values "buy_up", "buy_down", "hold"). -/
inductive Decision where
  | buyUp
  | buyDown
  | hold
deriving DecidableEq, Repr

/-- `Signal` dataclass from `src/bot/types.py`. -/
structure Signal where
  p_up_model : ℚ
  p_up_mkt : ℚ
  p_down_mkt : ℚ
  edge_up : ℚ
  edge_down : ℚ
  edge : ℚ
  decision : Decision
  reason_code : String
deriving DecidableEq, Repr

/-- `choose_signal` from `src/bot/strategy.py`: ordered tier of rules, first
match wins.  Tier 1 is the spread gate, tiers 2 and 3 the edge entries,
tier 4 the hold default. -/
def choose_signal (p_up_model up_mid edge_min max_spread up_spread down_spread : ℚ) :
    Signal :=
  let p_up_mkt := up_mid
  let p_down_mkt := max (1 - p_up_mkt) 0
  let edge_up := p_up_model - p_up_mkt
  let edge_down := (1 - p_up_model) - p_down_mkt
  if up_spread > max_spread ∨ down_spread > max_spread then
    { p_up_model := p_up_model, p_up_mkt := p_up_mkt, p_down_mkt := p_down_mkt,
      edge_up := edge_up, edge_down := edge_down, edge := max edge_up edge_down,
      decision := Decision.hold, reason_code := "spread_too_wide" }
  else if edge_up ≥ edge_min then
    { p_up_model := p_up_model, p_up_mkt := p_up_mkt, p_down_mkt := p_down_mkt,
      edge_up := edge_up, edge_down := edge_down, edge := edge_up,
      decision := Decision.buyUp, reason_code := "edge_up" }
  else if edge_down ≥ edge_min then
    { p_up_model := p_up_model, p_up_mkt := p_up_mkt, p_down_mkt := p_down_mkt,
      edge_up := edge_up, edge_down := edge_down, edge := edge_down,
      decision := Decision.buyDown, reason_code := "edge_down" }
  else
    { p_up_model := p_up_model, p_up_mkt := p_up_mkt, p_down_mkt := p_down_mkt,
      edge_up := edge_up, edge_down := edge_down, edge := max edge_up edge_down,
      decision := Decision.hold, reason_code := "edge_too_low" }

/-- `RiskState` dataclass from `src/bot/risk.py`. -/
structure RiskState where
  exposure_usd : ℚ
  realized_pnl_usd : ℚ
  last_trade_ts : Option ℚ
deriving DecidableEq, Repr

/-- Initial `RiskState()` (all defaults). -/
def RiskState.initial : RiskState :=
  { exposure_usd := 0, realized_pnl_usd := 0, last_trade_ts := none }

/-- Constructor arguments of `RiskManager` from `src/bot/risk.py`. -/
structure RiskConfig where
  max_position_usd : ℚ
  daily_loss_limit_usd : ℚ
  cooldown_seconds : ℚ
deriving DecidableEq, Repr

/-- `timedelta(days=1)` in seconds. -/
def seconds_per_day : ℚ := 86400

/-- `RiskManager.reset_if_new_day` from `src/bot/risk.py`: if more than one day
has elapsed since `day_start`, zero `realized_pnl_usd` and restart the day.
Returns the updated state and the updated `day_start`. -/
def reset_if_new_day (st : RiskState) (day_start now : ℚ) : RiskState × ℚ :=
  if now - day_start > seconds_per_day then
    ({ st with realized_pnl_usd := 0 }, now)
  else
    (st, day_start)

/-- Result of `RiskManager.can_open`: the (possibly day-reset) state plus the
returned `(allowed, reason)` pair. -/
structure CanOpenOutcome where
  state : RiskState
  day_start : ℚ
  allowed : Bool
  reason : String
deriving DecidableEq, Repr

/-- `RiskManager.can_open` from `src/bot/risk.py`.  It first runs
`reset_if_new_day`, then the three checks in order: daily loss limit,
exposure cap, cooldown. -/
def can_open (cfg : RiskConfig) (st : RiskState) (day_start now notional_usd : ℚ) :
    CanOpenOutcome :=
  let r := reset_if_new_day st day_start now
  let st1 := r.1
  let ds := r.2
  if st1.realized_pnl_usd ≤ -|cfg.daily_loss_limit_usd| then
    { state := st1, day_start := ds, allowed := false, reason := "daily_loss_limit_hit" }
  else if st1.exposure_usd + notional_usd > cfg.max_position_usd then
    { state := st1, day_start := ds, allowed := false, reason := "max_exposure_hit" }
  else
    match st1.last_trade_ts with
    | some t =>
      if now - t < cfg.cooldown_seconds then
        { state := st1, day_start := ds, allowed := false, reason := "cooldown_active" }
      else
        { state := st1, day_start := ds, allowed := true, reason := "ok" }
    | none =>
      { state := st1, day_start := ds, allowed := true, reason := "ok" }

/-- `RiskManager.on_open` from `src/bot/risk.py`. -/
def on_open (st : RiskState) (notional_usd now : ℚ) : RiskState :=
  { st with exposure_usd := st.exposure_usd + notional_usd, last_trade_ts := some now }

/-- `RiskManager.on_close` from `src/bot/risk.py`. -/
def on_close (st : RiskState) (notional_usd pnl_usd now : ℚ) : RiskState :=
  { exposure_usd := max (st.exposure_usd - notional_usd) 0,
    realized_pnl_usd := st.realized_pnl_usd + pnl_usd,
    last_trade_ts := some now }

/-- One call in a risk-manager call sequence: either `on_open(notional)` or
`on_close(notional, pnl)`, each stamped with its wall-clock time. -/
inductive RiskEvent where
  | openEvent (notional_usd now : ℚ)
  | closeEvent (notional_usd pnl_usd now : ℚ)
deriving DecidableEq, Repr

/-- Apply one risk event to the state. -/
def risk_step (st : RiskState) (e : RiskEvent) : RiskState :=
  match e with
  | RiskEvent.openEvent n t => on_open st n t
  | RiskEvent.closeEvent n p t => on_close st n p t

/-- Apply a sequence of `on_open`/`on_close` calls in order. -/
def risk_run (st : RiskState) (evs : List RiskEvent) : RiskState :=
  evs.foldl risk_step st

/-- An event with a nonnegative notional whenever it is an `on_open` call. -/
def nonneg_open_notional : RiskEvent → Bool
  | RiskEvent.openEvent n _ => decide (0 ≤ n)
  | RiskEvent.closeEvent _ _ _ => true

/-! ## Probability model (`src/bot/model.py`)

`MomentumVolModel.predict_up_probability` works on a deque of floats; we embed
it over `List ℝ`.  Python's negative indexing `prices[-k]` (for `1 ≤ k ≤ len`)
is the element at position `len - k`; the bot configures both windows as
positive integers (`MOMENTUM_WINDOW`, `VOL_WINDOW`), so only `k ≥ 1` occurs. -/

/-- `prices[-1]`: the last element. -/
noncomputable def py_last (prices : List ℝ) : ℝ :=
  prices.getD (prices.length - 1) 0

/-- `prices[-k]` for a positive offset `k`: the element at `len - k`. -/
noncomputable def py_neg (prices : List ℝ) (k : ℕ) : ℝ :=
  prices.getD (prices.length - k) 0

/-- `momentum = (prices[-1] - prices[-momentum_window]) / prices[-momentum_window]`. -/
noncomputable def momentum_of (momentum_window : ℕ) (prices : List ℝ) : ℝ :=
  (py_last prices - py_neg prices momentum_window) / py_neg prices momentum_window

/-- `returns = [(prices[i] - prices[i-1]) / prices[i-1] for i in
range(len(prices) - vol_window, len(prices))]`. -/
noncomputable def returns_of (vol_window : ℕ) (prices : List ℝ) : List ℝ :=
  (List.range vol_window).map (fun j =>
    let i := prices.length - vol_window + j
    (prices.getD i 0 - prices.getD (i - 1) 0) / prices.getD (i - 1) 0)

/-- `rv = sqrt(sum(r * r for r in returns) / len(returns))`. -/
noncomputable def realized_vol_of (vol_window : ℕ) (prices : List ℝ) : ℝ :=
  Real.sqrt (((returns_of vol_window prices).map (fun r => r * r)).sum /
    (returns_of vol_window prices).length)

/-- `MomentumVolModel.predict_up_probability` from `src/bot/model.py`:
insufficient-data default `0.5`, else logistic of
`momentum * 180.0 - rv * 20.0`, clamped to `[0.01, 0.99]`. -/
noncomputable def predict_up_probability (momentum_window vol_window : ℕ) (prices : List ℝ) : ℝ :=
  if prices.length < max momentum_window vol_window + 2 then 0.5
  else
    let score := momentum_of momentum_window prices * 180 -
      realized_vol_of vol_window prices * 20
    let prob := 1 / (1 + Real.exp (-score))
    min (max prob 0.01) 0.99

/-! ## Execution (`src/bot/execution.py`)

`Executor.place_limit` in paper mode synthesizes the status locally: a buy
fills when its price is at or above the quoted best ask; everything else
(including every sell) stays "open".  The live path posts the order through
the venue client and reports "submitted".  The generated `uuid` order id is
passed in as a parameter. -/

/-- Operating mode (`Mode` enum in `src/bot/types.py`). -/
inductive Mode where
  | paper
  | live
deriving DecidableEq, Repr

/-- `ExecutionResult` dataclass from `src/bot/execution.py`. -/
structure ExecutionResult where
  order_id : String
  status : String
  price : ℚ
  size : ℚ
deriving DecidableEq, Repr

/-- Paper-mode fill rule of `Executor.place_limit`:
`side == "buy" and best_ask is not None and price >= best_ask`. -/
def paper_fill (side : String) (price : ℚ) (best_ask : Option ℚ) : Bool :=
  (side == "buy") && (match best_ask with
    | some a => decide (price ≥ a)
    | none => false)

/-- `Executor.place_limit` from `src/bot/execution.py` (with the fresh uuid
order id supplied as `order_id`; the live branch's venue round-trip is
summarized by its constant reported status "submitted"). -/
def place_limit (mode : Mode) (order_id _token_id side : String)
    (price size : ℚ) (best_ask : Option ℚ) : ExecutionResult :=
  match mode with
  | Mode.paper =>
    { order_id := order_id,
      status := if paper_fill side price best_ask then "filled" else "open",
      price := price, size := size }
  | Mode.live =>
    { order_id := order_id, status := "submitted", price := price, size := size }

/-! ## Orchestrator (`src/bot/runner.py`, `decision_loop`)

One iteration of the decision loop, as a pure transition on the loop's
mutable state (the `position` slot, the risk state and its day window).
Feed snapshots (`binance.latest_price`, `poly.up_quote`, `poly.down_quote`),
the model output and the active market handle are inputs read at the top of
the tick.  The order-submission collaborator is passed in as a response
function `ExecFn` mapping the submitted `(token_id, side, price, size,
best_ask)` to the `ExecutionResult` the loop branches on; instantiating it
with `place_limit Mode.paper` yields the paper-mode loop.  Observability
writes (sqlite inserts, prints, structlog) have no effect on the state and
are omitted. -/

/-- A quote whose bid/ask fields may be unset (`MarketQuote` in
`src/bot/types.py` as produced by the websocket feed; `decision_loop`
explicitly checks `bid is None` / `ask is None`). -/
structure RawQuote where
  bid : Option ℚ
  ask : Option ℚ
deriving DecidableEq, Repr

/-- A quote both of whose sides are present (the view of a `MarketQuote`
after `decision_loop`'s `no_orderbook` guards). -/
structure QuoteV where
  bid : ℚ
  ask : ℚ
deriving DecidableEq, Repr

/-- `MarketQuote.mid` from `src/bot/types.py`:
`(bid + ask) / 2 if self.bid and self.ask else 0.0` — note Python truthiness:
a zero bid or ask yields mid `0.0`. -/
def QuoteV.mid (q : QuoteV) : ℚ :=
  if q.bid = 0 ∨ q.ask = 0 then 0 else (q.bid + q.ask) / 2

/-- `MarketQuote.spread` from `src/bot/types.py`: `max(ask - bid, 0.0)`. -/
def QuoteV.spread (q : QuoteV) : ℚ :=
  max (q.ask - q.bid) 0

/-- `Position` dataclass from `src/bot/types.py` (the `metadata` dict, unused
by the decision loop, is omitted). -/
structure Position where
  market_slug : String
  token_id : String
  qty : ℚ
  entry_price : ℚ
  entry_ts : ℚ
  side : String
  order_id : Option String
deriving DecidableEq, Repr

/-- The settings fields `decision_loop` reads. -/
structure TickConfig where
  edge_min : ℚ
  max_spread : ℚ
  order_size_usd : ℚ
  allow_cross_window_positions : Bool
  profit_take_bps : ℚ
  time_stop_seconds : ℚ
  risk : RiskConfig
deriving Repr

/-- The loop-owned mutable state: the single `position` slot and the risk
manager's state (`RiskManager.state` and `day_start`). -/
structure TickState where
  position : Option Position
  risk : RiskState
  day_start : ℚ
deriving DecidableEq, Repr

/-- The snapshots one tick reads: wall clock, `binance.latest_price`,
`poly.up_quote` / `poly.down_quote`, the model output for the current price
history, and the active market handle's identifiers. -/
structure TickInput where
  now : ℚ
  btc_price : Option ℚ
  up_quote : Option RawQuote
  down_quote : Option RawQuote
  p_model : ℚ
  active_slug : String
  active_up : String
  active_down : String
deriving DecidableEq, Repr

/-- The execution collaborator's response to the entry submission (the buy
call, which names the declared `best_ask` keyword and is well-formed):
token id → side → price → size → best ask → result. -/
def ExecFn : Type :=
  String → String → ℚ → ℚ → Option ℚ → ExecutionResult

/-- The outcome of evaluating the exit submission line
`executor.place_limit(position.token_id, "sell", quote.bid, position.qty,
best_bid=quote.bid)` (`src/bot/runner.py`), as a function of the arguments
the loop passes (token id, price, size, best bid): either the call raises —
`Except.error` with the exception text — or it returns an
`ExecutionResult`. -/
def SellSubmit : Type :=
  String → ℚ → ℚ → ℚ → Except String ExecutionResult

/-- What the program actually does at that line: `Executor.place_limit`
declares `best_ask` but no `best_bid` parameter and no `**kwargs`, so Python
raises `TypeError` at the call site — before the executor body runs, in paper
and live mode alike — and the `decision_loop` task dies at every exit
trigger. -/
def runner_sell_submit : SellSubmit :=
  fun _ _ _ _ => Except.error "TypeError: unexpected keyword argument best_bid"

/-- What one tick did: the updated loop state, the recorded reason, the exit
reason computed for an open position (if any), which order actions and
position transitions happened, and — when the tick raised instead of
completing — the exception text (the loop task dies there; the loop-local
state shown is its value at the raise). -/
structure TickResult where
  position : Option Position
  risk : RiskState
  day_start : ℚ
  reason : String
  exit_reason : Option String
  placed_sell : Bool
  placed_buy : Bool
  opened_position : Bool
  closed_position : Bool
  error : Option String
deriving DecidableEq, Repr

/-- A tick that records a reason and leaves the state untouched (the
`no_orderbook` `continue` paths, taken before the risk manager is queried). -/
def skip_result (st : TickState) (reason : String) : TickResult :=
  { position := st.position, risk := st.risk, day_start := st.day_start,
    reason := reason, exit_reason := none,
    placed_sell := false, placed_buy := false,
    opened_position := false, closed_position := false, error := none }

/-- A tick on which the decision is hold or the risk gate blocked: the risk
state carries any daily reset `can_open` applied, nothing is placed. -/
def hold_skip (co : CanOpenOutcome) (reason : String) : TickResult :=
  { position := none, risk := co.state, day_start := co.day_start,
    reason := reason, exit_reason := none, placed_sell := false,
    placed_buy := false, opened_position := false, closed_position := false,
    error := none }

/-- The exit trigger of `decision_loop`, first match wins:
`quote.mid >= target` → "profit_take"; else `elapsed >= time_stop_seconds` →
"time_stop"; else no exit this tick. -/
def exit_reason_of (mid target elapsed time_stop : ℚ) : Option String :=
  if mid ≥ target then some "profit_take"
  else if elapsed ≥ time_stop then some "time_stop"
  else none

/-- The `if position:` block of `decision_loop`: match the held token against
the active handle, evaluate the exit trigger, and on a trigger evaluate the
sell-submission line for the full quantity at the current best bid, closing
the slot only when a submission completes and reports status "filled".  Every
non-raising branch of this block ends in `continue`, so no entry is evaluated
afterwards.  The submission line's outcome is passed in as `sell_submit`; in
the program it is `runner_sell_submit` — the line spells the undeclared
keyword `best_bid`, so Python raises `TypeError` there and the loop task dies
with the slot untouched (`error` records the exception).  Quantifying over
`sell_submit` also covers every hypothetical completed response. -/
def position_branch (cfg : TickConfig) (sell_submit : SellSubmit)
    (co : CanOpenOutcome) (inp : TickInput) (uq dq : QuoteV) (reason : String)
    (pos : Position) : TickResult :=
  let quoteFound : Option QuoteV :=
    if pos.token_id = inp.active_up then some uq
    else if pos.token_id = inp.active_down then some dq
    else none
  match quoteFound with
  | none =>
    { position := some pos, risk := co.state, day_start := co.day_start,
      reason := reason, exit_reason := none, placed_sell := false,
      placed_buy := false, opened_position := false, closed_position := false,
      error := none }
  | some q =>
    let elapsed := inp.now - pos.entry_ts
    let target := pos.entry_price * (1 + cfg.profit_take_bps / 10000)
    match exit_reason_of q.mid target elapsed cfg.time_stop_seconds with
    | none =>
      { position := some pos, risk := co.state, day_start := co.day_start,
        reason := reason, exit_reason := none, placed_sell := false,
        placed_buy := false, opened_position := false, closed_position := false,
        error := none }
    | some er =>
      match sell_submit pos.token_id q.bid pos.qty q.bid with
      | Except.error msg =>
        { position := some pos, risk := co.state, day_start := co.day_start,
          reason := reason, exit_reason := some er, placed_sell := false,
          placed_buy := false, opened_position := false,
          closed_position := false, error := some msg }
      | Except.ok sell =>
        if sell.status = "filled" then
          let pnl := (sell.price - pos.entry_price) * pos.qty
          { position := none,
            risk := on_close co.state (pos.entry_price * pos.qty) pnl inp.now,
            day_start := co.day_start, reason := reason, exit_reason := some er,
            placed_sell := true, placed_buy := false,
            opened_position := false, closed_position := true, error := none }
        else
          { position := some pos, risk := co.state, day_start := co.day_start,
            reason := reason, exit_reason := some er, placed_sell := true,
            placed_buy := false, opened_position := false,
            closed_position := false, error := none }

/-- The entry block at the bottom of `decision_loop`: pick the token and quote
for the decision, submit a buy at the ask for
`order_size_usd / max(limit_price, 0.01)` shares, and create the `Position`
only if the order reports status "filled". -/
def entry_branch (cfg : TickConfig) (ex : ExecFn) (co : CanOpenOutcome)
    (inp : TickInput) (uq dq : QuoteV) (signal : Signal) (reason : String) :
    TickResult :=
  let buy_token := if signal.decision = Decision.buyUp then inp.active_up
    else inp.active_down
  let q := if signal.decision = Decision.buyUp then uq else dq
  let limit_price := q.ask
  let qty := cfg.order_size_usd / max limit_price (1 / 100)
  let result := ex buy_token "buy" limit_price qty (some q.ask)
  let new_pos : Position :=
    { market_slug := inp.active_slug, token_id := buy_token, qty := qty,
      entry_price := limit_price, entry_ts := inp.now, side := "buy",
      order_id := some result.order_id }
  if result.status = "filled" then
    { position := some new_pos,
      risk := on_open co.state cfg.order_size_usd inp.now,
      day_start := co.day_start, reason := reason, exit_reason := none,
      placed_sell := false, placed_buy := true,
      opened_position := true, closed_position := false, error := none }
  else
    { position := none, risk := co.state, day_start := co.day_start,
      reason := reason, exit_reason := none, placed_sell := false,
      placed_buy := true, opened_position := false, closed_position := false,
      error := none }

/-- One iteration of `decision_loop` from `src/bot/runner.py` as a pure
transition.  Structure, in source order: the two `no_orderbook` guards
(Python truthiness makes a `0.0` reference price count as missing), the
signal, the open-position override that re-runs `choose_signal` with the
unreachable edge threshold `9999`, the `can_open` query (which may apply the
daily reset to the risk state), the recorded reason, then the exit block for
an open position — whose sell-submission outcome is `sell_submit`, in the
program always the `TypeError` of `runner_sell_submit` — and otherwise the
hold/blocked skip or the entry block (whose buy call is well-formed and
answered by `ex`). -/
def decision_tick (cfg : TickConfig) (sell_submit : SellSubmit) (ex : ExecFn)
    (st : TickState) (inp : TickInput) : TickResult :=
  match inp.btc_price, inp.up_quote, inp.down_quote with
  | none, _, _ => skip_result st "no_orderbook"
  | some _, none, _ => skip_result st "no_orderbook"
  | some _, _, none => skip_result st "no_orderbook"
  | some b, some u, some d =>
    if b = 0 then skip_result st "no_orderbook"
    else
      match u.bid, u.ask, d.bid, d.ask with
      | some ubid, some uask, some dbid, some dask =>
        let uq : QuoteV := { bid := ubid, ask := uask }
        let dq : QuoteV := { bid := dbid, ask := dask }
        let signal0 := choose_signal inp.p_model uq.mid cfg.edge_min
          cfg.max_spread uq.spread dq.spread
        let overridden : Bool := signal0.decision ≠ Decision.hold ∧
          st.position.isSome = true ∧ cfg.allow_cross_window_positions = false
        let signal := if overridden then
            choose_signal inp.p_model uq.mid 9999 cfg.max_spread uq.spread dq.spread
          else signal0
        let reason1 := if overridden then "position_open_old_window"
          else signal0.reason_code
        let co := can_open cfg.risk st.risk st.day_start inp.now cfg.order_size_usd
        let reason := if signal.decision ≠ Decision.hold ∧ co.allowed = false then
            co.reason
          else reason1
        match st.position with
        | some pos => position_branch cfg sell_submit co inp uq dq reason pos
        | none =>
          if signal.decision = Decision.hold ∨ co.allowed = false then
            hold_skip co reason
          else entry_branch cfg ex co inp uq dq signal reason
      | _, _, _, _ => skip_result st "no_orderbook"

/-- The paper-mode execution collaborator: `Executor.place_limit` with
`mode == "paper"` (order ids are fresh uuids; the reported status never
depends on them). -/
def paper_exec (order_id : String) : ExecFn :=
  fun token_id side price size best_ask =>
    place_limit Mode.paper order_id token_id side price size best_ask

/-! ## Market continuity (`src/bot/runner.py`, `rotation_loop`) -/

/-- `MarketDiscoveryResult` dataclass from `src/bot/discovery.py`. -/
structure MarketDiscoveryResult where
  market_slug : String
  up_token_id : String
  down_token_id : String
deriving DecidableEq, Repr

/-- The state `rotation_loop` owns: the `active_market` handle the decision
loop reads, the `last_valid_market` handle, and `last_market_ok`. -/
structure RotationState where
  active : MarketDiscoveryResult
  last_valid : MarketDiscoveryResult
  last_market_ok : ℚ
deriving DecidableEq, Repr

/-- One iteration of `rotation_loop` from `src/bot/runner.py`, given the
result of `discover_btc_up_down_market` and the current time.  On success the
new handle always becomes `last_valid`; `active` is swapped (with a feed
resubscription) only when the slug or a token id differs.  On failure within
the fallback window `active` is (re)assigned `last_valid`; past the window
the state is left untouched and only an error is logged. -/
def rotation_step (fallback_seconds : ℚ) (st : RotationState)
    (discovered : Option MarketDiscoveryResult) (now : ℚ) : RotationState :=
  match discovered with
  | some nm =>
    let token_changed := nm.up_token_id ≠ st.active.up_token_id ∨
      nm.down_token_id ≠ st.active.down_token_id
    if nm.market_slug ≠ st.active.market_slug ∨ token_changed then
      { active := nm, last_valid := nm, last_market_ok := now }
    else
      { active := st.active, last_valid := nm, last_market_ok := now }
  | none =>
    let age := now - st.last_market_ok
    if age ≤ fallback_seconds then
      { active := st.last_valid, last_valid := st.last_valid,
        last_market_ok := st.last_market_ok }
    else
      st

/-- A whole run of `rotation_loop`: fold the step over a sequence of
(discovery result, time) iterations. -/
def rotation_run (fallback_seconds : ℚ) (st : RotationState)
    (events : List (Option MarketDiscoveryResult × ℚ)) : RotationState :=
  events.foldl (fun s e => rotation_step fallback_seconds s e.1 e.2) st

/-! ## Helper lemmas -/

/-- The insufficient-data guard of `predict_up_probability`. -/
lemma predict_up_probability_of_short (m v : ℕ) (prices : List ℝ)
    (h : prices.length < max m v + 2) :
    predict_up_probability m v prices = 0.5 := by
  unfold predict_up_probability
  rw [if_pos h]

/-- `List.getD` on a replicated list at an in-range index. -/
lemma getD_replicate_of_lt {α : Type} (a d : α) (n i : ℕ) (h : i < n) :
    (List.replicate n a).getD i d = a := by
  induction n generalizing i with
  | zero => exact absurd h (Nat.not_lt_zero i)
  | succ n ih =>
    rw [List.replicate_succ]
    cases i with
    | zero => rw [List.getD_cons_zero]
    | succ i => rw [List.getD_cons_succ]; exact ih i (Nat.lt_of_succ_lt_succ h)

/-! ## Claims -/

/-- C7: whenever `up_spread > max_spread` or `down_spread > max_spread`,
`choose_signal` returns decision hold with reason code "spread_too_wide" and
chosen edge `max(edge_up, edge_down)`, regardless of the magnitudes of
`edge_up` and `edge_down` (which are quantified freely through `p_up_model`,
`up_mid` and `edge_min`): no later tier is reached. -/
theorem choose_signal_spread_gate
    (p_up_model up_mid edge_min max_spread up_spread down_spread : ℚ)
    (h : up_spread > max_spread ∨ down_spread > max_spread) :
    (choose_signal p_up_model up_mid edge_min max_spread up_spread down_spread).decision
        = Decision.hold ∧
    (choose_signal p_up_model up_mid edge_min max_spread up_spread down_spread).reason_code
        = "spread_too_wide" ∧
    (choose_signal p_up_model up_mid edge_min max_spread up_spread down_spread).edge
        = max (p_up_model - up_mid) ((1 - p_up_model) - max (1 - up_mid) 0) := by
  unfold choose_signal
  rw [if_pos h]
  exact ⟨rfl, rfl, rfl⟩

/-- Witness for C7 at a concrete input: up spread 2 against bound 1, with a
maximal model edge (p_up_model 1 against up_mid 0), still
hold/"spread_too_wide". -/
theorem choose_signal_spread_gate_w :
    (choose_signal 1 0 0 1 2 0).decision = Decision.hold ∧
    (choose_signal 1 0 0 1 2 0).reason_code = "spread_too_wide" ∧
    (choose_signal 1 0 0 1 2 0).edge = max ((1 : ℚ) - 0) ((1 - 1) - max (1 - 0) 0) :=
  choose_signal_spread_gate 1 0 0 1 2 0 (Or.inl (by decide))

/-- C8: for every price history shorter than
`max(momentum_window, vol_window) + 2`, `predict_up_probability` returns
exactly `0.5` (a returned default, not an error). -/
theorem predict_up_probability_insufficient (m v : ℕ) (prices : List ℝ)
    (h : prices.length < max m v + 2) :
    predict_up_probability m v prices = 0.5 :=
  predict_up_probability_of_short m v prices h

/-- Witness for C8: a single-sample history with both windows 2. -/
theorem predict_up_probability_insufficient_w :
    predict_up_probability 2 2 [(1 : ℝ)] = 0.5 :=
  predict_up_probability_insufficient 2 2 [(1 : ℝ)] (by simp)

/-- C9: for every price history and every window configuration, the value
returned by `predict_up_probability` lies in `[0.01, 0.99]` (the guard
returns `0.5`, and the main path is clamped). -/
theorem predict_up_probability_in_band (m v : ℕ) (prices : List ℝ) :
    0.01 ≤ predict_up_probability m v prices ∧
    predict_up_probability m v prices ≤ 0.99 := by
  unfold predict_up_probability
  split
  · norm_num
  · exact ⟨le_min (le_max_right _ _) (by norm_num), min_le_right _ _⟩

/-- C2, counterexample to the claim as stated: `can_open` runs
`reset_if_new_day` before any check, so once more than a day has elapsed
since `day_start` the realized pnl is zeroed first and the call is allowed
even though `realized_pnl_usd <= -daily_loss_limit_usd` held on entry.
Here: limits (30, 20, 45), state (exposure 0, pnl −25, no last trade),
`day_start = 0`, `now = 100000` (> 86400), notional 10. -/
theorem can_open_daily_loss_cex :
    (RiskState.mk 0 (-25) none).realized_pnl_usd ≤
        -(RiskConfig.mk 30 20 45).daily_loss_limit_usd ∧
    (can_open (RiskConfig.mk 30 20 45) (RiskState.mk 0 (-25) none) 0 100000 10).allowed
        = true ∧
    (can_open (RiskConfig.mk 30 20 45) (RiskState.mk 0 (-25) none) 0 100000 10).reason
        = "ok" := by
  refine ⟨by norm_num, ?_, ?_⟩ <;>
    norm_num [can_open, reset_if_new_day, seconds_per_day]

/-- C2, amended: provided the rolling daily reset does not fire (at most one
day has elapsed since `day_start`), whenever
`realized_pnl_usd ≤ -abs(daily_loss_limit_usd)` the call returns
`(false, "daily_loss_limit_hit")` — for every requested notional, every
exposure and every cooldown state, i.e. this blocking condition is decided
before the exposure and cooldown checks. -/
theorem can_open_daily_loss_first (cfg : RiskConfig) (st : RiskState)
    (day_start now notional_usd : ℚ)
    (hday : now - day_start ≤ seconds_per_day)
    (hpnl : st.realized_pnl_usd ≤ -|cfg.daily_loss_limit_usd|) :
    (can_open cfg st day_start now notional_usd).allowed = false ∧
    (can_open cfg st day_start now notional_usd).reason = "daily_loss_limit_hit" := by
  unfold can_open reset_if_new_day
  rw [if_neg (not_lt.mpr hday)]
  exact ⟨by rw [if_pos hpnl], by rw [if_pos hpnl]⟩

/-- Witness for the amended C2: pnl −25 against limit 20, a live cooldown and
an exposure already at the cap — still `daily_loss_limit_hit`. -/
theorem can_open_daily_loss_first_w :
    (can_open (RiskConfig.mk 30 20 45) (RiskState.mk 30 (-25) (some 99)) 0 100 50).allowed
        = false ∧
    (can_open (RiskConfig.mk 30 20 45) (RiskState.mk 30 (-25) (some 99)) 0 100 50).reason
        = "daily_loss_limit_hit" :=
  can_open_daily_loss_first (RiskConfig.mk 30 20 45) (RiskState.mk 30 (-25) (some 99))
    0 100 50 (by norm_num [seconds_per_day]) (by norm_num)

/-- C3, counterexample to the claim as stated: `on_open` adds the notional
unconditionally, so a single `on_open(-1)` call from the initial state drives
`exposure_usd` to −1 < 0. -/
theorem exposure_nonneg_cex :
    (risk_run RiskState.initial [RiskEvent.openEvent (-1) 0]).exposure_usd < 0 := by
  norm_num [risk_run, risk_step, on_open, RiskState.initial]

/-- Exposure stays nonnegative along any run whose `on_open` notionals are
nonnegative (`on_close` clamps at 0 whatever its arguments). -/
lemma risk_run_exposure_nonneg (evs : List RiskEvent) (st : RiskState)
    (hst : 0 ≤ st.exposure_usd)
    (h : ∀ e ∈ evs, nonneg_open_notional e = true) :
    0 ≤ (risk_run st evs).exposure_usd := by
  induction evs generalizing st with
  | nil => simpa [risk_run] using hst
  | cons e rest ih =>
    have he := h e (List.mem_cons_self e rest)
    have hrest : ∀ e' ∈ rest, nonneg_open_notional e' = true :=
      fun e' h' => h e' (List.mem_cons_of_mem e h')
    have hstep : 0 ≤ (risk_step st e).exposure_usd := by
      cases e with
      | openEvent n t =>
        have hn : 0 ≤ n := by simpa [nonneg_open_notional] using he
        simpa [risk_step, on_open] using add_nonneg hst hn
      | closeEvent n p t =>
        simp [risk_step, on_close]
    simpa [risk_run] using ih (risk_step st e) hstep hrest

/-- C3, amended: for every sequence of `on_open`/`on_close` calls in which
each `on_open` notional is nonnegative (`on_close` arguments stay arbitrary),
starting from the initial `RiskState`, `exposure_usd` is never negative at
any point of the sequence (i.e. after every prefix). -/
theorem exposure_nonneg_along_run (evs : List RiskEvent)
    (h : ∀ e ∈ evs, nonneg_open_notional e = true) (k : ℕ) :
    0 ≤ (risk_run RiskState.initial (List.take k evs)).exposure_usd :=
  risk_run_exposure_nonneg (List.take k evs) RiskState.initial le_rfl
    (fun e he => h e (List.take_subset k evs he))

/-- Witness for the amended C3: open 5, close 7 with pnl −2, checked after
both events. -/
theorem exposure_nonneg_along_run_w :
    0 ≤ (risk_run RiskState.initial
      (List.take 2 [RiskEvent.openEvent 5 0, RiskEvent.closeEvent 7 (-2) 1])).exposure_usd :=
  exposure_nonneg_along_run [RiskEvent.openEvent 5 0, RiskEvent.closeEvent 7 (-2) 1]
    (by norm_num [nonneg_open_notional]) 2

/-- C10: on a constant price history of 100 identical values, with any
positive `momentum_window` and `vol_window`, the momentum is 0, the realized
volatility is 0 (whenever the windows let the main path run at all, i.e. the
insufficient-data guard does not fire), and `predict_up_probability` returns
exactly `0.5`. -/
theorem predict_up_probability_const (c : ℝ) (m v : ℕ) (hm : 1 ≤ m) (hv : 1 ≤ v) :
    momentum_of m (List.replicate 100 c) = 0 ∧
    (max m v + 2 ≤ 100 → realized_vol_of v (List.replicate 100 c) = 0) ∧
    predict_up_probability m v (List.replicate 100 c) = 0.5 := by
  have hlen : (List.replicate 100 c).length = 100 := List.length_replicate 100 c
  have hmom : momentum_of m (List.replicate 100 c) = 0 := by
    unfold momentum_of py_last py_neg
    rw [hlen]
    rw [getD_replicate_of_lt c 0 100 (100 - 1) (by omega),
      getD_replicate_of_lt c 0 100 (100 - m) (by omega)]
    rw [sub_self, zero_div]
  have hrv : max m v + 2 ≤ 100 → realized_vol_of v (List.replicate 100 c) = 0 := by
    intro hg
    have hv100 : v ≤ 100 := by
      have := le_max_right m v
      omega
    have hzero : ∀ r ∈ returns_of v (List.replicate 100 c), r = 0 := by
      intro r hr
      unfold returns_of at hr
      simp only [List.mem_map, List.mem_range] at hr
      obtain ⟨j, hj, rfl⟩ := hr
      rw [hlen]
      rw [getD_replicate_of_lt c 0 100 (100 - v + j) (by omega),
        getD_replicate_of_lt c 0 100 (100 - v + j - 1) (by omega)]
      rw [sub_self, zero_div]
    have hsum : ((returns_of v (List.replicate 100 c)).map (fun r => r * r)).sum = 0 := by
      apply List.sum_eq_zero
      intro x hx
      obtain ⟨r, hr, rfl⟩ := List.mem_map.mp hx
      rw [hzero r hr, mul_zero]
    unfold realized_vol_of
    rw [hsum, zero_div, Real.sqrt_zero]
  refine ⟨hmom, hrv, ?_⟩
  by_cases hg : (List.replicate 100 c).length < max m v + 2
  · exact predict_up_probability_of_short m v (List.replicate 100 c) hg
  · have hg' : max m v + 2 ≤ 100 := by
      rw [hlen] at hg
      omega
    unfold predict_up_probability
    rw [if_neg hg]
    rw [hmom, hrv hg']
    norm_num [Real.exp_zero]

/-- Witness for C10 at windows 3 and 4 and price 2. -/
theorem predict_up_probability_const_w :
    momentum_of 3 (List.replicate 100 (2 : ℝ)) = 0 ∧
    (max 3 4 + 2 ≤ 100 → realized_vol_of 4 (List.replicate 100 (2 : ℝ)) = 0) ∧
    predict_up_probability 3 4 (List.replicate 100 (2 : ℝ)) = 0.5 :=
  predict_up_probability_const 2 3 4 (by decide) (by decide)

/-- On success with an unchanged identity the discovered handle equals the
current active handle (a `MarketDiscoveryResult` is exactly its slug and two
token ids). -/
lemma rotation_same_identity (nm act : MarketDiscoveryResult)
    (h : ¬(nm.market_slug ≠ act.market_slug ∨
      (nm.up_token_id ≠ act.up_token_id ∨ nm.down_token_id ≠ act.down_token_id))) :
    nm = act := by
  push_neg at h
  obtain ⟨a, b, c⟩ := nm
  obtain ⟨a', b', c'⟩ := act
  simp only [MarketDiscoveryResult.mk.injEq]
  simp_all

/-- The step preserves `active = last_valid`. -/
lemma rotation_step_inv (fb : ℚ) (st : RotationState)
    (d : Option MarketDiscoveryResult) (now : ℚ)
    (h : st.active = st.last_valid) :
    (rotation_step fb st d now).active = (rotation_step fb st d now).last_valid := by
  unfold rotation_step
  cases d with
  | none =>
    dsimp only
    split
    · rfl
    · exact h
  | some nm =>
    dsimp only
    split
    · rfl
    · next hn => exact (rotation_same_identity nm st.active hn).symm

/-- C6: market-continuity safety.  (i) `active = last_valid` is preserved by
every iteration; (ii) on a discovery failure, at any age of the last valid
resolution — within or past `market_discovery_fallback_seconds` — `active`
remains the prior `last_valid` handle and `last_valid` itself is unchanged,
so `active` never reverts to an unvalidated candidate or to empty; (iii) a
step only ever leaves `active` in place, re-installs `last_valid`, or installs
the successfully discovered handle; (iv) the invariant holds along any run. -/
theorem rotation_active_is_last_valid :
    (∀ (fb : ℚ) (st : RotationState) (d : Option MarketDiscoveryResult) (now : ℚ),
      st.active = st.last_valid →
      (rotation_step fb st d now).active = (rotation_step fb st d now).last_valid) ∧
    (∀ (fb : ℚ) (st : RotationState) (now : ℚ),
      st.active = st.last_valid →
      (rotation_step fb st none now).active = st.last_valid ∧
      (rotation_step fb st none now).last_valid = st.last_valid) ∧
    (∀ (fb : ℚ) (st : RotationState) (d : Option MarketDiscoveryResult) (now : ℚ),
      (rotation_step fb st d now).active = st.active ∨
      (rotation_step fb st d now).active = st.last_valid ∨
      (∃ nm, d = some nm ∧ (rotation_step fb st d now).active = nm)) ∧
    (∀ (fb : ℚ) (st : RotationState)
      (events : List (Option MarketDiscoveryResult × ℚ)),
      st.active = st.last_valid →
      (rotation_run fb st events).active = (rotation_run fb st events).last_valid) := by
  refine ⟨rotation_step_inv, ?_, ?_, ?_⟩
  · intro fb st now h
    unfold rotation_step
    dsimp only
    split
    · exact ⟨rfl, rfl⟩
    · exact ⟨h, rfl⟩
  · intro fb st d now
    unfold rotation_step
    cases d with
    | none =>
      dsimp only
      split
      · right; left; rfl
      · left; rfl
    | some nm =>
      dsimp only
      split
      · right; right; exact ⟨nm, rfl, rfl⟩
      · left; rfl
  · intro fb st events h
    induction events generalizing st with
    | nil => simpa [rotation_run] using h
    | cons e rest ih =>
      have hstep := rotation_step_inv fb st e.1 e.2 h
      simpa [rotation_run] using ih (rotation_step fb st e.1 e.2) hstep

/-- Witness for C6: a concrete failing-discovery step past the fallback
window (`age = fallback + 1`) keeps both `active` and `last_valid` at the
prior `last_valid` value. -/
theorem rotation_active_is_last_valid_w :
    (rotation_step 120 (RotationState.mk (MarketDiscoveryResult.mk "s" "u" "d")
        (MarketDiscoveryResult.mk "s" "u" "d") 0) none 121).active
      = MarketDiscoveryResult.mk "s" "u" "d" ∧
    (rotation_step 120 (RotationState.mk (MarketDiscoveryResult.mk "s" "u" "d")
        (MarketDiscoveryResult.mk "s" "u" "d") 0) none 121).last_valid
      = MarketDiscoveryResult.mk "s" "u" "d" :=
  rotation_active_is_last_valid.2.1 120
    (RotationState.mk (MarketDiscoveryResult.mk "s" "u" "d")
      (MarketDiscoveryResult.mk "s" "u" "d") 0) 121 rfl

/-! ### Tick lemmas for the decision loop -/

/-- The exit trigger takes only three values. -/
lemma exit_reason_of_mem (mid target elapsed ts : ℚ) :
    exit_reason_of mid target elapsed ts = none ∨
    exit_reason_of mid target elapsed ts = some "profit_take" ∨
    exit_reason_of mid target elapsed ts = some "time_stop" := by
  unfold exit_reason_of
  split
  · exact Or.inr (Or.inl rfl)
  · split
    · exact Or.inr (Or.inr rfl)
    · exact Or.inl rfl


/-- The position block never evaluates or submits an entry, whatever the
sell-submission outcome (a raise included). -/
lemma position_branch_no_entry (cfg : TickConfig) (sell_submit : SellSubmit)
    (co : CanOpenOutcome) (inp : TickInput) (uq dq : QuoteV) (reason : String)
    (pos : Position) :
    (position_branch cfg sell_submit co inp uq dq reason pos).placed_buy = false ∧
    (position_branch cfg sell_submit co inp uq dq reason pos).opened_position = false := by
  unfold position_branch
  dsimp only
  repeat' split
  all_goals exact ⟨rfl, rfl⟩

/-- A fired exit trigger carries one of the two exit reasons. -/
lemma exit_reason_of_some (mid target elapsed ts : ℚ) (s : String)
    (h : exit_reason_of mid target elapsed ts = some s) :
    s = "profit_take" ∨ s = "time_stop" := by
  rcases exit_reason_of_mem mid target elapsed ts with h0 | h1 | h2
  · rw [h] at h0; exact absurd h0 (by simp)
  · rw [h] at h1; exact Or.inl (Option.some.inj h1)
  · rw [h] at h2; exact Or.inr (Option.some.inj h2)

/-- If the position block empties the slot, it did close the position, and
the exit reason it computed was "profit_take" or "time_stop" — a raising
submission keeps the slot, so only a completed "filled" response closes. -/
lemma position_branch_close (cfg : TickConfig) (sell_submit : SellSubmit)
    (co : CanOpenOutcome) (inp : TickInput) (uq dq : QuoteV) (reason : String)
    (pos : Position)
    (h : (position_branch cfg sell_submit co inp uq dq reason pos).position = none) :
    (position_branch cfg sell_submit co inp uq dq reason pos).closed_position = true ∧
    ((position_branch cfg sell_submit co inp uq dq reason pos).exit_reason = some "profit_take" ∨
     (position_branch cfg sell_submit co inp uq dq reason pos).exit_reason = some "time_stop") := by
  revert h
  unfold position_branch
  dsimp only
  split
  · intro h; exact absurd h (by simp)
  · split
    · intro h; exact absurd h (by simp)
    · rename_i er heq
      split
      · intro h; exact absurd h (by simp)
      · split
        · intro _
          refine ⟨rfl, ?_⟩
          rcases exit_reason_of_some _ _ _ _ _ heq with h | h
          · exact Or.inl (by rw [h])
          · exact Or.inr (by rw [h])
        · intro h; exact absurd h (by simp)

/-- The entry block never closes a position. -/
lemma entry_branch_not_closed (cfg : TickConfig) (ex : ExecFn)
    (co : CanOpenOutcome) (inp : TickInput) (uq dq : QuoteV) (signal : Signal)
    (reason : String) :
    (entry_branch cfg ex co inp uq dq signal reason).closed_position = false := by
  unfold entry_branch
  dsimp only
  repeat' split
  all_goals rfl

/-- A tick that starts with an open position either takes a `no_orderbook`
skip or runs the position block — never the hold skip or the entry block. -/
lemma tick_with_position_cases (cfg : TickConfig) (sell_submit : SellSubmit)
    (ex : ExecFn) (st : TickState) (inp : TickInput) (pos : Position)
    (h : st.position = some pos) :
    decision_tick cfg sell_submit ex st inp = skip_result st "no_orderbook" ∨
    ∃ co uq dq reason,
      decision_tick cfg sell_submit ex st inp
        = position_branch cfg sell_submit co inp uq dq reason pos := by
  unfold decision_tick
  dsimp only
  rw [h]
  dsimp only
  repeat' split
  all_goals first
    | exact Or.inl rfl
    | exact Or.inr ⟨_, _, _, _, rfl⟩

/-- A tick that starts with no position never closes one. -/
lemma tick_without_position_not_closed (cfg : TickConfig)
    (sell_submit : SellSubmit) (ex : ExecFn) (st : TickState) (inp : TickInput)
    (h : st.position = none) :
    (decision_tick cfg sell_submit ex st inp).closed_position = false := by
  unfold decision_tick
  dsimp only
  rw [h]
  dsimp only
  repeat' split
  all_goals first
    | rfl
    | exact entry_branch_not_closed _ _ _ _ _ _ _ _

/-- C4: within one tick, the exit evaluation of an open position precedes any
new-entry evaluation, and no tick both closes and opens a position: whenever
a position is open at the start of the tick — whether or not it closes
during the tick — no entry order is evaluated or submitted (first conjunct),
and no tick reports both a close and an open (second conjunct).  Both hold
for every sell-submission outcome (the program's `TypeError` raise included)
and every entry-order response. -/
theorem tick_exit_precedes_entry :
    (∀ (cfg : TickConfig) (sell_submit : SellSubmit) (ex : ExecFn)
      (st : TickState) (inp : TickInput) (pos : Position),
      st.position = some pos →
      (decision_tick cfg sell_submit ex st inp).placed_buy = false ∧
      (decision_tick cfg sell_submit ex st inp).opened_position = false) ∧
    (∀ (cfg : TickConfig) (sell_submit : SellSubmit) (ex : ExecFn)
      (st : TickState) (inp : TickInput),
      ¬((decision_tick cfg sell_submit ex st inp).closed_position = true ∧
        (decision_tick cfg sell_submit ex st inp).opened_position = true)) := by
  have part1 : ∀ (cfg : TickConfig) (sell_submit : SellSubmit) (ex : ExecFn)
      (st : TickState) (inp : TickInput) (pos : Position),
      st.position = some pos →
      (decision_tick cfg sell_submit ex st inp).placed_buy = false ∧
      (decision_tick cfg sell_submit ex st inp).opened_position = false := by
    intro cfg sell_submit ex st inp pos h
    rcases tick_with_position_cases cfg sell_submit ex st inp pos h with
      heq | ⟨co, uq, dq, reason, heq⟩
    · rw [heq]; exact ⟨rfl, rfl⟩
    · rw [heq]; exact position_branch_no_entry cfg sell_submit co inp uq dq reason pos
  refine ⟨part1, ?_⟩
  intro cfg sell_submit ex st inp hc
  cases hp : st.position with
  | some pos =>
    have := (part1 cfg sell_submit ex st inp pos hp).2
    rw [this] at hc
    exact absurd hc.2 (by simp)
  | none =>
    have := tick_without_position_not_closed cfg sell_submit ex st inp hp
    rw [this] at hc
    exact absurd hc.1 (by simp)

/-- Witness for C4: a concrete tick starting with an open position (valid
quotes, huge model edge, a filled sell response) evaluates no entry and opens
nothing. -/
theorem tick_exit_precedes_entry_w :
    (decision_tick
      (TickConfig.mk 0 1 0 false 0 600 (RiskConfig.mk 0 1 0))
      (fun _ price size _ => Except.ok (ExecutionResult.mk "o" "filled" price size))
      (fun _ _ price size _ => ExecutionResult.mk "o" "filled" price size)
      (TickState.mk (some (Position.mk "m" "U" 1 0 0 "buy" none))
        (RiskState.mk 0 0 none) 0)
      (TickInput.mk 0 (some 1) (some (RawQuote.mk (some 0) (some 0)))
        (some (RawQuote.mk (some 0) (some 0))) 1 "m" "U" "D")).placed_buy = false ∧
    (decision_tick
      (TickConfig.mk 0 1 0 false 0 600 (RiskConfig.mk 0 1 0))
      (fun _ price size _ => Except.ok (ExecutionResult.mk "o" "filled" price size))
      (fun _ _ price size _ => ExecutionResult.mk "o" "filled" price size)
      (TickState.mk (some (Position.mk "m" "U" 1 0 0 "buy" none))
        (RiskState.mk 0 0 none) 0)
      (TickInput.mk 0 (some 1) (some (RawQuote.mk (some 0) (some 0)))
        (some (RawQuote.mk (some 0) (some 0))) 1 "m" "U" "D")).opened_position = false :=
  tick_exit_precedes_entry.1
    (TickConfig.mk 0 1 0 false 0 600 (RiskConfig.mk 0 1 0))
    (fun _ price size _ => Except.ok (ExecutionResult.mk "o" "filled" price size))
    (fun _ _ price size _ => ExecutionResult.mk "o" "filled" price size)
    (TickState.mk (some (Position.mk "m" "U" 1 0 0 "buy" none))
      (RiskState.mk 0 0 none) 0)
    (TickInput.mk 0 (some 1) (some (RawQuote.mk (some 0) (some 0)))
      (some (RawQuote.mk (some 0) (some 0))) 1 "m" "U" "D")
    (Position.mk "m" "U" 1 0 0 "buy" none) rfl

/-- C5: an open position's slot becomes empty only through a close whose exit
reason is "profit_take" or "time_stop" (first conjunct: no third exit path —
proved for every sell-submission outcome, the program's `TypeError` raise
included, and every entry response), and the triggers are exactly the
documented ones with profit-take checked first: "profit_take" fires iff
`quote.mid ≥ entry_price * (1 + profit_take_bps/10000)`, "time_stop" fires
iff that fails and `elapsed ≥ time_stop_seconds`, and otherwise there is no
exit this tick. -/
theorem position_closes_only_via_exits :
    (∀ (cfg : TickConfig) (sell_submit : SellSubmit) (ex : ExecFn)
      (st : TickState) (inp : TickInput) (pos : Position),
      st.position = some pos →
      (decision_tick cfg sell_submit ex st inp).position = none →
      (decision_tick cfg sell_submit ex st inp).closed_position = true ∧
      ((decision_tick cfg sell_submit ex st inp).exit_reason = some "profit_take" ∨
       (decision_tick cfg sell_submit ex st inp).exit_reason = some "time_stop")) ∧
    (∀ mid target elapsed ts : ℚ,
      (exit_reason_of mid target elapsed ts = some "profit_take" ↔ mid ≥ target) ∧
      (exit_reason_of mid target elapsed ts = some "time_stop" ↔
        (¬mid ≥ target ∧ elapsed ≥ ts)) ∧
      (exit_reason_of mid target elapsed ts = none ↔
        (¬mid ≥ target ∧ ¬elapsed ≥ ts))) := by
  constructor
  · intro cfg sell_submit ex st inp pos h hnone
    rcases tick_with_position_cases cfg sell_submit ex st inp pos h with
      heq | ⟨co, uq, dq, reason, heq⟩
    · rw [heq] at hnone
      rw [show (skip_result st "no_orderbook").position = st.position from rfl, h] at hnone
      exact absurd hnone (by simp)
    · rw [heq] at hnone ⊢
      exact position_branch_close cfg sell_submit co inp uq dq reason pos hnone
  · intro mid target elapsed ts
    refine ⟨?_, ?_, ?_⟩ <;> unfold exit_reason_of
    · split
      · next hge => simp [hge]
      · next hge =>
        split <;> simp [hge]
    · split
      · next hge => simp [hge]
      · next hge =>
        split
        · next hts => simp [hge, hts]
        · next hts => simp [hge, hts]
    · split
      · next hge => simp [hge]
      · next hge =>
        split
        · next hts => simp [hge, hts]
        · next hts => simp [hge, hts]

/-- Witness for C5: a concrete tick in which the held token's mid (0, from a
zero bid) meets the target (entry price 0) and the injected submission
outcome is a completed sell reported "filled" — the slot empties with a close
and exit reason "profit_take". -/
theorem position_closes_only_via_exits_w :
    (decision_tick (TickConfig.mk 2 0 0 false 0 0 (RiskConfig.mk 0 1 0))
      (fun _ price size _ => Except.ok (ExecutionResult.mk "o" "filled" price size))
      (fun _ _ price size _ => ExecutionResult.mk "o" "filled" price size)
      (TickState.mk (some (Position.mk "m" "U" 1 0 0 "buy" none))
        (RiskState.mk 0 0 none) 0)
      (TickInput.mk 0 (some 1) (some (RawQuote.mk (some 0) (some 0)))
        (some (RawQuote.mk (some 0) (some 0))) 1 "m" "U" "D")).closed_position = true ∧
    ((decision_tick (TickConfig.mk 2 0 0 false 0 0 (RiskConfig.mk 0 1 0))
      (fun _ price size _ => Except.ok (ExecutionResult.mk "o" "filled" price size))
      (fun _ _ price size _ => ExecutionResult.mk "o" "filled" price size)
      (TickState.mk (some (Position.mk "m" "U" 1 0 0 "buy" none))
        (RiskState.mk 0 0 none) 0)
      (TickInput.mk 0 (some 1) (some (RawQuote.mk (some 0) (some 0)))
        (some (RawQuote.mk (some 0) (some 0))) 1 "m" "U" "D")).exit_reason
          = some "profit_take" ∨
     (decision_tick (TickConfig.mk 2 0 0 false 0 0 (RiskConfig.mk 0 1 0))
      (fun _ price size _ => Except.ok (ExecutionResult.mk "o" "filled" price size))
      (fun _ _ price size _ => ExecutionResult.mk "o" "filled" price size)
      (TickState.mk (some (Position.mk "m" "U" 1 0 0 "buy" none))
        (RiskState.mk 0 0 none) 0)
      (TickInput.mk 0 (some 1) (some (RawQuote.mk (some 0) (some 0)))
        (some (RawQuote.mk (some 0) (some 0))) 1 "m" "U" "D")).exit_reason
          = some "time_stop") :=
  position_closes_only_via_exits.1
    (TickConfig.mk 2 0 0 false 0 0 (RiskConfig.mk 0 1 0))
    (fun _ price size _ => Except.ok (ExecutionResult.mk "o" "filled" price size))
    (fun _ _ price size _ => ExecutionResult.mk "o" "filled" price size)
    (TickState.mk (some (Position.mk "m" "U" 1 0 0 "buy" none))
      (RiskState.mk 0 0 none) 0)
    (TickInput.mk 0 (some 1) (some (RawQuote.mk (some 0) (some 0)))
      (some (RawQuote.mk (some 0) (some 0))) 1 "m" "U" "D")
    (Position.mk "m" "U" 1 0 0 "buy" none) rfl
    (by norm_num [decision_tick, position_branch, exit_reason_of, skip_result,
      hold_skip, can_open, reset_if_new_day, seconds_per_day, choose_signal,
      QuoteV.mid, QuoteV.spread, on_close])

/-- A paper-mode sell always reports status "open". -/
lemma paper_sell_status (order_id token_id : String) (price size : ℚ)
    (best_ask : Option ℚ) :
    (place_limit Mode.paper order_id token_id "sell" price size best_ask).status
      = "open" := by
  simp [place_limit, paper_fill]

/-- C1: the claim states the intended paper-mode exit behavior — a sell
submission synthesizes status "open", the close guard `status == "filled"`
fails, the position stays open — and `Executor.place_limit` itself does
return "open" for every paper sell (first conjunct).  But the decision
loop's exit path never obtains that status: its submission line passes the
undeclared keyword `best_bid`, so Python raises `TypeError` at every exit
trigger and the loop task dies.  The second conjunct evaluates the loop at a
concrete failing input (paper mode, open position on the active up token,
mid 0 meeting target 0 so "profit_take" fires): the tick raises with the
`TypeError`, submits no sell, and leaves the slot holding the position — the
position indeed never closes, but through the crash, not through the claimed
open-status mechanism. -/
theorem exit_path_type_error :
    (∀ (order_id token_id : String) (price size : ℚ) (best_ask : Option ℚ),
      (place_limit Mode.paper order_id token_id "sell" price size best_ask).status
        = "open") ∧
    ((decision_tick (TickConfig.mk 2 0 0 false 0 0 (RiskConfig.mk 0 1 0))
      runner_sell_submit (paper_exec "o")
      (TickState.mk (some (Position.mk "m" "U" 1 0 0 "buy" none))
        (RiskState.mk 0 0 none) 0)
      (TickInput.mk 0 (some 1) (some (RawQuote.mk (some 0) (some 0)))
        (some (RawQuote.mk (some 0) (some 0))) 1 "m" "U" "D")).error
        = some "TypeError: unexpected keyword argument best_bid" ∧
    (decision_tick (TickConfig.mk 2 0 0 false 0 0 (RiskConfig.mk 0 1 0))
      runner_sell_submit (paper_exec "o")
      (TickState.mk (some (Position.mk "m" "U" 1 0 0 "buy" none))
        (RiskState.mk 0 0 none) 0)
      (TickInput.mk 0 (some 1) (some (RawQuote.mk (some 0) (some 0)))
        (some (RawQuote.mk (some 0) (some 0))) 1 "m" "U" "D")).exit_reason
        = some "profit_take" ∧
    (decision_tick (TickConfig.mk 2 0 0 false 0 0 (RiskConfig.mk 0 1 0))
      runner_sell_submit (paper_exec "o")
      (TickState.mk (some (Position.mk "m" "U" 1 0 0 "buy" none))
        (RiskState.mk 0 0 none) 0)
      (TickInput.mk 0 (some 1) (some (RawQuote.mk (some 0) (some 0)))
        (some (RawQuote.mk (some 0) (some 0))) 1 "m" "U" "D")).position
        = some (Position.mk "m" "U" 1 0 0 "buy" none) ∧
    (decision_tick (TickConfig.mk 2 0 0 false 0 0 (RiskConfig.mk 0 1 0))
      runner_sell_submit (paper_exec "o")
      (TickState.mk (some (Position.mk "m" "U" 1 0 0 "buy" none))
        (RiskState.mk 0 0 none) 0)
      (TickInput.mk 0 (some 1) (some (RawQuote.mk (some 0) (some 0)))
        (some (RawQuote.mk (some 0) (some 0))) 1 "m" "U" "D")).placed_sell
        = false ∧
    (decision_tick (TickConfig.mk 2 0 0 false 0 0 (RiskConfig.mk 0 1 0))
      runner_sell_submit (paper_exec "o")
      (TickState.mk (some (Position.mk "m" "U" 1 0 0 "buy" none))
        (RiskState.mk 0 0 none) 0)
      (TickInput.mk 0 (some 1) (some (RawQuote.mk (some 0) (some 0)))
        (some (RawQuote.mk (some 0) (some 0))) 1 "m" "U" "D")).closed_position
        = false) := by
  refine ⟨paper_sell_status, ?_⟩
  norm_num [decision_tick, position_branch, runner_sell_submit, exit_reason_of,
    skip_result, hold_skip, can_open, reset_if_new_day, seconds_per_day,
    choose_signal, QuoteV.mid, QuoteV.spread]

end BotPoly
